import Mathlib

/-!
Verification of the company-crawler service against its design document.

The development shallowly embeds the Python sources:
* `src/scrapers/handelsregister_scraper.py` — register-number decomposition
  (`_get_register_type` / `_get_register_number`) and the PDF/XML combination
  in `scrape_company`;
* `src/utils/pdf_data_extractor.py` — `_clean_number`;
* `src/scrapers/northdata_scraper.py` — the numeric revenue parsing of
  `_extract_umsatz` and the field assembly of `_extract_company_data`;
* `src/scrapers/linkedin_scraper.py` — the session gate of
  `scrape_with_playwright`;
* `src/server.py` — the `/api/company` handler `crawl_company`.

Python strings are modelled as `String` (sequences of code points), Python
dicts either as association lists (`List (String × _)`) or, where only
lookups matter, as functions `String → Option _` (a key is present exactly
when the function returns `some`; values stored as Python `None` and absent
keys coincide wherever the source only ever tests `is not None` / key
presence together).  Python `float` results are modelled as exact rationals
(`Rat`); every concrete value appearing below is exactly representable, so
nothing depends on binary rounding.  Filesystem reads and the text pdfplumber
extracts from a PDF are supplied by an explicit environment record.
-/

/-- Occurrence of `pat` as a contiguous run inside a list. -/
def listContains (pat : List Char) : List Char → Bool
  | [] => pat.isEmpty
  | c :: cs => pat.isPrefixOf (c :: cs) || listContains pat cs

/-- Python's `needle in haystack` substring test, on code points. -/
def strContains (s pat : String) : Bool :=
  listContains pat.data s.data

/-- Python's `s.startswith(pre)`, on code points. -/
def strStartsWith (s pre : String) : Bool :=
  pre.data.isPrefixOf s.data

/-- Two strings are equal as soon as their code-point lists are. -/
theorem strEqOfData {a b : String} (h : a.data = b.data) : a = b := by
  cases a
  cases b
  simp only at h
  subst h
  rfl

theorem strData_append (a b : String) : (a ++ b).data = a.data ++ b.data := rfl

/-! ## `_get_register_type` / `_get_register_number`
(`src/scrapers/handelsregister_scraper.py`, lines 220-233).

The Python loop `for reg_type in types: if registernummer.startswith(reg_type):
return ...` is the first match over the literal list, i.e. `List.find?`; the
slice `registernummer[len(reg_type):]` drops that many code points. -/

def registerTypes : List String := ["HRB", "HRA", "GnR", "PR", "VR", "GsR"]

def getRegisterType (registernummer : String) : String :=
  match registerTypes.find? (fun t => strStartsWith registernummer t) with
  | some t => t
  | none => "HRB"

def getRegisterNumber (registernummer : String) : String :=
  match registerTypes.find? (fun t => strStartsWith registernummer t) with
  | some t => String.mk (registernummer.data.drop t.length)
  | none => registernummer

/-- No register-type code is a proper prefix of another one. -/
theorem registerTypes_no_overlap :
    ∀ t₁ ∈ registerTypes, ∀ t₂ ∈ registerTypes,
      t₁.data.isPrefixOf t₂.data → t₁ = t₂ := by
  decide

theorem registerTypes_unique {r : String} {t₁ t₂ : String}
    (h₁ : t₁ ∈ registerTypes) (h₂ : t₂ ∈ registerTypes)
    (p₁ : strStartsWith r t₁ = true) (p₂ : strStartsWith r t₂ = true) :
    t₁ = t₂ := by
  have q₁ : t₁.data <+: r.data := by
    simpa [strStartsWith, List.isPrefixOf_iff_prefix] using p₁
  have q₂ : t₂.data <+: r.data := by
    simpa [strStartsWith, List.isPrefixOf_iff_prefix] using p₂
  rcases List.prefix_or_prefix_of_prefix q₁ q₂ with h | h
  · exact registerTypes_no_overlap t₁ h₁ t₂ h₂
      (List.isPrefixOf_iff_prefix.mpr h)
  · exact (registerTypes_no_overlap t₂ h₂ t₁ h₁
      (List.isPrefixOf_iff_prefix.mpr h)).symm

theorem concat_of_startsWith {r t : String} (p : strStartsWith r t = true) :
    t ++ String.mk (r.data.drop t.length) = r := by
  have q : t.data <+: r.data := by
    simpa [strStartsWith, List.isPrefixOf_iff_prefix] using p
  obtain ⟨rest, hrest⟩ := q
  apply strEqOfData
  rw [strData_append]
  show t.data ++ (r.data.drop t.data.length) = r.data
  rw [← hrest, List.drop_left]

/-- C10: for a register number starting with one of the enumerated type codes,
`_get_register_type` returns that code and `_get_register_number` strips
exactly it (so their concatenation restores the input); for any other input
both functions fall back (type `"HRB"`, number unchanged) without erroring,
and the concatenation then differs from the input.  Together: the
concatenation equals the input exactly when the input carries an enumerated
prefix code. -/
theorem register_split (r : String) :
    (∀ t, t ∈ registerTypes → strStartsWith r t = true →
        getRegisterType r = t ∧
        getRegisterType r ++ getRegisterNumber r = r) ∧
    ((∀ t, t ∈ registerTypes → strStartsWith r t = false) →
        getRegisterType r = "HRB" ∧ getRegisterNumber r = r ∧
        getRegisterType r ++ getRegisterNumber r ≠ r) := by
  constructor
  · intro t ht hp
    cases hfind : registerTypes.find? (fun t => strStartsWith r t) with
    | none =>
        rw [List.find?_eq_none] at hfind
        exact absurd hp (by simpa using hfind t ht)
    | some t' =>
        have ht' : t' ∈ registerTypes := List.mem_of_find?_eq_some hfind
        have hp' : strStartsWith r t' = true := by
          simpa using List.find?_some hfind
        have : t' = t := registerTypes_unique ht' ht hp' hp
        subst this
        refine ⟨by simp [getRegisterType, hfind], ?_⟩
        rw [getRegisterType, getRegisterNumber, hfind]
        exact concat_of_startsWith hp'
  · intro hall
    have hfind : registerTypes.find? (fun t => strStartsWith r t) = none := by
      rw [List.find?_eq_none]
      intro t ht
      simp [hall t ht]
    refine ⟨by simp [getRegisterType, hfind], by simp [getRegisterNumber, hfind], ?_⟩
    rw [getRegisterType, getRegisterNumber, hfind]
    intro h
    have hlen := congrArg (fun s => s.data.length) h
    simp [strData_append] at hlen
    omega

/-- Concrete check of `register_split`: `"HRB182742"` splits into `"HRB"` and
`"182742"` and reassembles exactly. -/
theorem register_split_witness :
    getRegisterType "HRB182742" = "HRB" ∧
    getRegisterType "HRB182742" ++ getRegisterNumber "HRB182742" = "HRB182742" :=
  (register_split "HRB182742").1 "HRB" (by decide) (by decide)

/-! ## Field values

A single scraped field value, covering the scalar types the scrapers
produce (string, int, float-as-rational, bool, list of strings). -/

inductive Val where
  | s (v : String)
  | i (v : Int)
  | f (v : Rat)
  | b (v : Bool)
  | ls (v : List String)
deriving DecidableEq, Repr

/-! ## Registry-portal adapter: PDF/XML combination
(`src/scrapers/handelsregister_scraper.py`, lines 93-105, 417-499).

`_extract_xml_data` / `_extract_pdf_data` copy, for each entry of their
identity `field_mapping`, the parsed document's value into a fresh dict when
it is present and not `None`; the raw parsed document is modelled as a map
`String → Option Val` where `some` means present-with-non-`None`-value.  (The
guard `if company_field not in company_data or ... is None` inside
`_extract_pdf_data` never fires: `company_data` starts empty and each target
key is assigned at most once, so it is the plain assignment modelled here.)
`scrape_company` then builds
`{'registernummer': ..., 'download_directory': ..., **pdf_data, **xml_data}`,
i.e. on a key collision the XML value overwrites the PDF value. -/

def xmlMappedFields : List String :=
  ["registernummer", "handelsregister", "geschaeftsfuehrer",
   "geschaeftsadresse", "unternehmenszweck", "gruendungsdatum",
   "land_des_hauptsitzes", "gerichtsstand", "paragraph_34_gewo"]

def pdfMappedFields : List String :=
  ["geschaeftsadresse", "unternehmenszweck", "geschaeftsfuehrer",
   "handelsregister", "registernummer"]

def extractXmlData (xmlRaw : String → Option Val) : String → Option Val :=
  fun k => if k ∈ xmlMappedFields then xmlRaw k else none

def extractPdfData (pdfRaw : String → Option Val) : String → Option Val :=
  fun k => if k ∈ pdfMappedFields then pdfRaw k else none

/-- The dict built at lines 100-105 of `scrape_company`: base keys, then the
PDF fields, then the XML fields, each later group overwriting the earlier. -/
def scrapeCombine (reg dir : String) (pdfD xmlD : String → Option Val) :
    String → Option Val :=
  fun k =>
    match xmlD k with
    | some v => some v
    | none =>
      match pdfD k with
      | some v => some v
      | none =>
        if k = "registernummer" then some (.s reg)
        else if k = "download_directory" then some (.s dir)
        else none

/-- C5: whenever the structured XML (SI) document and the free-text PDF (AD)
document both supply a field, the combined record of `scrape_company` holds
the XML document's value. -/
theorem hr_xml_beats_pdf (reg dir : String)
    (pdfRaw xmlRaw : String → Option Val) (k : String) (vx vp : Val)
    (hx : extractXmlData xmlRaw k = some vx)
    (hp : extractPdfData pdfRaw k = some vp) :
    scrapeCombine reg dir (extractPdfData pdfRaw) (extractXmlData xmlRaw) k
      = some vx := by
  unfold scrapeCombine
  rw [hx]

/-- Concrete check of `hr_xml_beats_pdf`: both documents report
`handelsregister`, the XML value `"Hamburg"` wins over the PDF's
`"Berlin"`. -/
theorem hr_xml_beats_pdf_witness :
    scrapeCombine "HRB182742" "data/companies"
      (extractPdfData fun k =>
        if k = "handelsregister" then some (.s "Berlin") else none)
      (extractXmlData fun k =>
        if k = "handelsregister" then some (.s "Hamburg") else none)
      "handelsregister" = some (.s "Hamburg") :=
  hr_xml_beats_pdf "HRB182742" "data/companies" _ _ "handelsregister"
    (.s "Hamburg") (.s "Berlin") (by decide) (by decide)

/-! ## Aggregator-site adapter: field assembly
(`src/scrapers/northdata_scraper.py`, lines 237-281, 498-523).

`_extract_company_data` builds a dict with `registernummer` plus one entry
per `_extract_*` helper and then drops the entries whose value is `None`
(`data = {k: v for k, v in data.items() if v is not None}`).  All helpers but
`_extract_insolvenz` take their value from the live page, so they are
modelled as an abstract map `ext : String → Option Val` (`none` = the helper
returned `None`); `_extract_insolvenz` is determined by the page text alone:
it returns `True` when one of its indicator substrings occurs and `False`
otherwise (its `None` arises only from a browser exception, outside this
model).  The `None`-filtering makes "key present in the returned dict" and
"value is `some`" coincide, which is how the result map below reads. -/

def insolvencyIndicators : List String :=
  ["✝︎", "Liquidation", "Insolvenz", "Insolvency", "Erloschen", "Terminiert"]

def extractInsolvenz (content : String) : Option Bool :=
  some (insolvencyIndicators.any (fun ind => strContains content ind))

def northOtherKeys : List String :=
  ["handelsregister", "geschaeftsadresse", "unternehmenszweck",
   "land_des_hauptsitzes", "gerichtsstand", "paragraph_34_gewo",
   "mitarbeiter", "umsatz", "gewinn",
   "anzahl_immobilien", "gesamtwert_immobilien",
   "sonstige_rechte", "gruendungsdatum", "aktiv_seit",
   "geschaeftsfuehrer", "telefonnummer", "email", "website"]

/-- The record `_extract_company_data` returns, after its `None` filter. -/
def extractCompanyData (reg content : String) (ext : String → Option Val) :
    String → Option Val :=
  fun k =>
    if k = "registernummer" then some (.s reg)
    else if k = "insolvenz" then (extractInsolvenz content).map Val.b
    else if k ∈ northOtherKeys then ext k
    else none

/-- C8 as amended: a schema field whose page-driven extractor returned `None`
is absent from the aggregator-site record — except for `insolvenz`, which
`_extract_insolvenz` reports for every page: `True` if an insolvency
indicator occurs in the page text and the default `False` otherwise, so the
field is present even when nothing was located. -/
theorem northdata_field_omission (reg content : String)
    (ext : String → Option Val) (k : String)
    (hk : k ∈ northOtherKeys) (hnone : ext k = none) :
    extractCompanyData reg content ext k = none ∧
    extractCompanyData reg content ext "insolvenz"
      = some (.b (insolvencyIndicators.any (fun ind => strContains content ind))) := by
  constructor
  · have h₁ : k ≠ "registernummer" := by
      intro h
      rw [h] at hk
      exact absurd hk (by decide)
    have h₂ : k ≠ "insolvenz" := by
      intro h
      rw [h] at hk
      exact absurd hk (by decide)
    simp [extractCompanyData, h₁, h₂, hk, hnone]
  · simp [extractCompanyData, extractInsolvenz]

/-- Concrete check of `northdata_field_omission`: on a page where no helper
located anything, `umsatz` is absent but `insolvenz` is present as
`False`. -/
theorem northdata_field_omission_witness :
    extractCompanyData "HRB182742" "" (fun _ => none) "umsatz" = none ∧
    extractCompanyData "HRB182742" "" (fun _ => none) "insolvenz"
      = some (.b false) := by
  have h := northdata_field_omission "HRB182742" "" (fun _ => none) "umsatz"
    (by decide) rfl
  exact ⟨h.1, by rw [h.2]; decide⟩

/-- C8 counterexample: the claim "a field that could not be located is never
present with a false default" fails at the `insolvenz` field — on an empty
page, where nothing at all was located, the record still contains
`insolvenz = False`. -/
theorem northdata_insolvenz_default_cex :
    extractCompanyData "HRB182742" "" (fun _ => none) "insolvenz"
      = some (.b false) := by
  decide

/-! ## Professional-network adapter: session gate
(`src/scrapers/linkedin_scraper.py`, lines 340-391).

`scrape_with_playwright` initialises a default record (`registernummer` plus
all-`None` fields), navigates to the site, and checks the session:
`is_logged_in = '/login' not in current_url`, with a fallback check on a
search-box element when the URL test fails.  When the check fails it returns
the untouched default record; otherwise scraping continues (modelled as an
abstract continuation on the record).  No error object, error key or
`FetchError`/`AuthenticationRequired` kind exists anywhere in the module. -/

def linkedinDefault (reg : String) : List (String × Option Val) :=
  [("registernummer", some (.s reg)), ("mitarbeiter", none),
   ("website", none), ("email", none), ("telefonnummer", none),
   ("about_html", none)]

def sessionActive (currentUrl : String) (searchBoxVisible : Bool) : Bool :=
  if strContains currentUrl "/login" then searchBoxVisible else true

def scrapeWithPlaywright (reg currentUrl : String) (searchBoxVisible : Bool)
    (rest : List (String × Option Val) → List (String × Option Val)) :
    List (String × Option Val) :=
  if sessionActive currentUrl searchBoxVisible then rest (linkedinDefault reg)
  else linkedinDefault reg

/-- C9 as amended: whenever no valid session exists (the post-navigation URL
is the login page and no logged-in search box is visible), the adapter
returns its default record — `registernummer` plus all-`None` fields, with no
error entry of any kind — without running the scraping sequence. -/
theorem linkedin_no_session (reg currentUrl : String) (sb : Bool)
    (rest : List (String × Option Val) → List (String × Option Val))
    (h : sessionActive currentUrl sb = false) :
    scrapeWithPlaywright reg currentUrl sb rest = linkedinDefault reg ∧
    (linkedinDefault reg).lookup "error" = none := by
  constructor
  · simp [scrapeWithPlaywright, h]
  · simp [linkedinDefault]

/-- Concrete check of `linkedin_no_session`, with a continuation that would
have produced a different record had scraping been attempted. -/
theorem linkedin_no_session_witness :
    scrapeWithPlaywright "HRB182742" "https://www.linkedin.com/login" false
      (fun d => ("about_html", some (.s "x")) :: d)
      = linkedinDefault "HRB182742" ∧
    (linkedinDefault "HRB182742").lookup "error" = none :=
  linkedin_no_session "HRB182742" "https://www.linkedin.com/login" false
    (fun d => ("about_html", some (.s "x")) :: d) (by decide)

/-- C9 counterexample: with the stored session invalid, the adapter returns
the ordinary default record — indistinguishable from an empty result and
carrying no `AuthenticationRequired` marker — refuting the claim that a
typed authentication failure is reported. -/
theorem linkedin_no_session_cex :
    scrapeWithPlaywright "HRB182742" "https://www.linkedin.com/login" false
      (fun d => ("about_html", some (.s "x")) :: d)
      = linkedinDefault "HRB182742" := by
  decide

/-! ## Numeric text parsing
(`src/utils/pdf_data_extractor.py`, lines 189-203 and
`src/scrapers/northdata_scraper.py`, lines 347-419).

`float()` applied to the digit/dot strings these functions build accepts an
optional integer part, an optional single dot, and an optional fractional
part (at least one digit overall); anything else raises, which the callers
turn into `None`.  `parseDecimal` below is that grammar, with the value as an
exact rational. -/

def digitsVal (cs : List Char) : Nat :=
  cs.foldl (fun n c => 10 * n + (c.toNat - 48)) 0

/-- Python `str.split('.')`. -/
def splitDot : List Char → List (List Char)
  | [] => [[]]
  | c :: cs =>
    if c = '.' then [] :: splitDot cs
    else
      match splitDot cs with
      | [] => [[c]]
      | p :: ps => (c :: p) :: ps

def parseDecimal (s : String) : Option Rat :=
  match splitDot s.data with
  | [p] =>
    if p ≠ [] ∧ p.all Char.isDigit then some (Rat.divInt (digitsVal p) 1)
    else none
  | [p, q] =>
    if (p ≠ [] ∨ q ≠ []) ∧ p.all Char.isDigit ∧ q.all Char.isDigit then
      some (Rat.divInt (digitsVal p * 10 ^ q.length + digitsVal q) (10 ^ q.length))
    else none
  | _ => none

/-- The two-part case of `parseDecimal` is the usual decimal value
`intpart + fracpart / 10^digits`, written over a common denominator. -/
theorem parseDecimal_frac_value (ip fq : Nat) (k : Nat) :
    Rat.divInt (ip * 10 ^ k + fq) (10 ^ k)
      = (ip : Rat) + (fq : Rat) / ((10 : Rat) ^ k) := by
  rw [Rat.divInt_eq_div]
  push_cast
  have h : ((10 : Rat) ^ k) ≠ 0 := by positivity
  field_simp

/-- `_clean_number`: strip every character other than digits, commas and
dots, drop the dots (thousands separators), turn the comma into a decimal
dot, and read the result as a float — `None` if that fails. -/
def cleanNumber (value : String) : Option Rat :=
  let cleaned := String.mk (value.data.filter (fun c => c.isDigit || c = ',' || c = '.'))
  let noDots := String.mk (cleaned.data.filter (fun c => c ≠ '.'))
  let decimalForm := String.mk (noDots.data.map (fun c => if c = ',' then '.' else c))
  parseDecimal decimalForm

/-! `_extract_umsatz` fallback text parsing (lines 394-410): on an element's
text it first looks for the leftmost occurrence of
`(\d+)[.,](\d+)\s*Mio` (case-insensitive) and returns
`float(f"{whole}.{decimal}")`; failing that it takes the leftmost
`(\d+[.,]\d+)`, replaces the comma by a dot and reads a float.  Because a
digit can match neither `[.,]`, `\s` nor `M`, both capture groups are the
maximal digit runs at their position and no further backtracking arises, so
the matchers below scan positions left to right with greedy digit runs
exactly as the regexes do. -/

def isPySpace (c : Char) : Bool :=
  c = ' ' || c = '\t' || c = '\n' || c = '\r' || c = '\x0b' || c = '\x0c'

def mioMatchAt (cs : List Char) : Option (String × String) :=
  let d1 := cs.takeWhile Char.isDigit
  let r1 := cs.dropWhile Char.isDigit
  if d1.isEmpty then none
  else
    match r1 with
    | c :: r2 =>
      if c = '.' || c = ',' then
        let d2 := r2.takeWhile Char.isDigit
        let r3 := r2.dropWhile Char.isDigit
        if d2.isEmpty then none
        else if ['m', 'i', 'o'].isPrefixOf ((r3.dropWhile isPySpace).map Char.toLower) then
          some (String.mk d1, String.mk d2)
        else none
      else none
    | [] => none

def mioFind : List Char → Option (String × String)
  | [] => none
  | c :: cs =>
    match mioMatchAt (c :: cs) with
    | some m => some m
    | none => mioFind cs

def numPairMatchAt (cs : List Char) : Option String :=
  let d1 := cs.takeWhile Char.isDigit
  let r1 := cs.dropWhile Char.isDigit
  if d1.isEmpty then none
  else
    match r1 with
    | c :: r2 =>
      if c = '.' || c = ',' then
        let d2 := r2.takeWhile Char.isDigit
        if d2.isEmpty then none else some (String.mk (d1 ++ c :: d2))
      else none
    | [] => none

def numPairFind : List Char → Option String
  | [] => none
  | c :: cs =>
    match numPairMatchAt (c :: cs) with
    | some m => some m
    | none => numPairFind cs

/-- The numeric conversion `_extract_umsatz` applies to an element's raw
text. -/
def umsatzFromText (text : String) : Option Rat :=
  match mioFind text.data with
  | some (whole, decim) => parseDecimal (whole ++ "." ++ decim)
  | none =>
    match numPairFind text.data with
    | some n =>
      parseDecimal (String.mk (n.data.map (fun c => if c = ',' then '.' else c)))
    | none => none

/-- C6 counterexample: the revenue text `"2,1 Mio. €"` parses to `2.1`, not
to the claimed `2100000.0` — no code path applies the million multiplier. -/
theorem umsatz_mio_cex :
    umsatzFromText "2,1 Mio. €" = some (Rat.divInt 21 10) ∧
    Rat.divInt 21 10 ≠ (2100000 : Rat) := by
  decide

/-- C6 as amended: `_clean_number` converts the German notation
`"11.100.000,00 EUR"` to exactly `11100000.00`, while the revenue text
`"2,1 Mio. €"` is parsed by `_extract_umsatz` to `2.1` — the `Mio.`
multiplier is not applied anywhere. -/
theorem numeric_parse_amended :
    cleanNumber "11.100.000,00 EUR" = some (11100000 : Rat) ∧
    umsatzFromText "2,1 Mio. €" = some (Rat.divInt 21 10) := by
  decide

/-! ## The `/api/company` handler
(`src/server.py`, lines 103-350).

`crawl_company` submits the four scrapers to a thread pool and calls
`future.result()` on each in order (Handelsregister, Northdata, LinkedIn,
Unternehmensregister; lines 159-163).  `result()` re-raises an exception
raised inside the adapter, and the only handler is the `except Exception`
wrapping the whole body (lines 337-350), which returns a fixed
`CompanyResponse` with `success=False`, `error=str(e)` and all artifacts
`None`.  The four adapter outcomes are therefore modelled as
`Except String PyDict`; sequencing them in the `Except` monad is exactly
"first raised exception aborts the body".

On the success path the handler turns each adapter dict into a per-source
artifact dict (reading downloaded files — modelled by `Env.fileText`, with
pdfplumber's text extraction folded into it), optionally extracts a VAT id
`DE\d{9}` from artifact contents when none was supplied (lines 282-312,
with `Env.ustFromFile` standing for the `companies.json` lookup), assembles
`all_files` (lines 314-324) — note line 324 stores the extracted VAT id
directly as a string value of `all_files` — and returns `success=True`.
The model builds the response record exactly as the code does, without the
response-model validation a web framework might add on top. -/

abbrev PyDict := List (String × Option String)

structure Env where
  fileText : String → Option String
  ustFromFile : Option String

structure CompanyRequest where
  company_name : String
  registernummer : String
  ust_idnr : Option String

/-- One value of the `files` mapping: either a per-source artifact dict or
(after line 324) a bare string. -/
inductive FEntry where
  | dict (m : List (String × Option String))
  | str (v : String)
deriving DecidableEq, Repr

structure CompanyResponse where
  company_name : String
  registernummer : String
  files : List (String × FEntry)
  success : Bool
  error : Option String
deriving DecidableEq, Repr

/-- Leftmost match of the regex `DE\d{9}` (`re.search`, lines 291-311). -/
def deMatchAt : List Char → Option String
  | 'D' :: 'E' :: rest =>
    if (rest.take 9).length = 9 ∧ (rest.take 9).all Char.isDigit then
      some (String.mk ('D' :: 'E' :: rest.take 9))
    else none
  | _ => none

def findDEList : List Char → Option String
  | [] => none
  | c :: cs =>
    match deMatchAt (c :: cs) with
    | some m => some m
    | none => findDEList cs

def findDE (s : String) : Option String :=
  findDEList s.data

def joinPath (dir name : String) : String := dir ++ "/" ++ name

/-- Handelsregister block, lines 165-215: when the adapter dict carries a
usable `download_directory`, read the two expected files (absent file →
`None`); any other shape — key missing, or a `None` value that would crash
`os.path.join` into the local `except` — yields `{"pdf": None, "xml": None}`. -/
def hrProcess (env : Env) (reg : String) (hd : PyDict) :
    List (String × Option String) :=
  match hd.lookup "download_directory" with
  | some (some dir) =>
    [("pdf", env.fileText (joinPath dir (reg ++ "_AD.pdf"))),
     ("xml", env.fileText (joinPath dir (reg ++ "_SI.xml")))]
  | _ => [("pdf", none), ("xml", none)]

/-- Northdata block, lines 217-244: a truthy `html_filepath` is read from
disk, everything else gives `{"html": None}`. -/
def ndProcess (env : Env) (nd : PyDict) : List (String × Option String) :=
  match nd.lookup "html_filepath" with
  | some (some p) => if p = "" then [("html", none)] else [("html", env.fileText p)]
  | _ => [("html", none)]

/-- LinkedIn block, lines 246-262: a truthy `about_html` is passed through. -/
def liProcess (ld : PyDict) : List (String × Option String) :=
  match ld.lookup "about_html" with
  | some (some h) =>
    if h = "" then [("about_html", none)] else [("about_html", some h)]
  | _ => [("about_html", none)]

/-- Unternehmensregister block, lines 264-280. -/
def urProcess (ud : PyDict) : List (String × Option String) :=
  match ud.lookup "jahresabschluss_html" with
  | some (some h) =>
    if h = "" then [("jahresabschluss_html", none)]
    else [("jahresabschluss_html", some h)]
  | _ => [("jahresabschluss_html", none)]

/-- `files.get(key)` followed by Python truthiness. -/
def artifactText (fs : List (String × Option String)) (k : String) :
    Option String :=
  match fs.lookup k with
  | some (some c) => if c = "" then none else some c
  | _ => none

/-- Lines 282-312: try the Handelsregister XML, then the Northdata HTML,
then the Unternehmensregister HTML for a `DE\d{9}` match. -/
def extractedUst (hrF ndF urF : List (String × Option String)) : Option String :=
  match (artifactText hrF "xml").bind findDE with
  | some u => some u
  | none =>
    match (artifactText ndF "html").bind findDE with
    | some u => some u
    | none => (artifactText urF "jahresabschluss_html").bind findDE

/-- Lines 117-121: a truthy, non-blank `ust_idnr` from the request wins,
otherwise the `companies.json` lookup. -/
def finalUstIdnr (env : Env) (req : CompanyRequest) : Option String :=
  match req.ust_idnr with
  | some u => if u ≠ "" ∧ u.trim ≠ "" then some u else env.ustFromFile
  | none => env.ustFromFile

/-- Lines 314-332: `all_files` plus the `success=True` response. -/
def successResponse (env : Env) (req : CompanyRequest)
    (hd nd ld ud : PyDict) : CompanyResponse :=
  let hrF := hrProcess env req.registernummer hd
  let ndF := ndProcess env nd
  let liF := liProcess ld
  let urF := urProcess ud
  let extracted :=
    match finalUstIdnr env req with
    | some u => if u = "" then extractedUst hrF ndF urF else none
    | none => extractedUst hrF ndF urF
  { company_name := req.company_name
    registernummer := req.registernummer
    files :=
      [("handelsregister", .dict hrF), ("northdata", .dict ndF),
       ("linkedin", .dict liF), ("unternehmensregister", .dict urF)]
      ++ (match extracted with
          | some u => [("extracted_ust_idnr", FEntry.str u)]
          | none => [])
    success := true
    error := none }

/-- Lines 337-350: the fixed error response. -/
def errorFiles : List (String × FEntry) :=
  [("handelsregister", .dict [("pdf", none), ("xml", none)]),
   ("northdata", .dict [("html", none)]),
   ("linkedin", .dict [("about_html", none)]),
   ("unternehmensregister", .dict [("jahresabschluss_html", none)])]

def errorResponse (req : CompanyRequest) (msg : String) : CompanyResponse :=
  { company_name := req.company_name
    registernummer := req.registernummer
    files := errorFiles
    success := false
    error := some msg }

abbrev AdapterOutcome := Except String PyDict

/-- The four `future.result()` calls in order; the first exception aborts. -/
def collect4 (hr nd li ur : AdapterOutcome) :
    Except String (PyDict × PyDict × PyDict × PyDict) := do
  let a ← hr
  let b ← nd
  let c ← li
  let d ← ur
  return (a, b, c, d)

/-- The whole `crawl_company` handler as a total function: every outcome —
including an adapter exception — produces a `CompanyResponse`, never a
protocol-level failure. -/
def crawlCompany (env : Env) (req : CompanyRequest)
    (hr nd li ur : AdapterOutcome) : CompanyResponse :=
  match collect4 hr nd li ur with
  | .error e => errorResponse req e
  | .ok (a, b, c, d) => successResponse env req a b c d

def env0 : Env := { fileText := fun _ => none, ustFromFile := none }

def req0 : CompanyRequest :=
  { company_name := "Example GmbH", registernummer := "HRB182742",
    ust_idnr := some "" }

/-- C3: whenever an exception escapes the handler body (here: any adapter
raising, which `future.result()` re-raises), the endpoint answers with a
normally returned `CompanyResponse` carrying `success=false` and the
exception's message — `crawlCompany` is a total function into
`CompanyResponse`, so no protocol-level failure exists. -/
theorem crawl_exception_surfaced (env : Env) (req : CompanyRequest)
    (hr nd li ur : AdapterOutcome) (e : String)
    (h : collect4 hr nd li ur = Except.error e) :
    crawlCompany env req hr nd li ur = errorResponse req e ∧
    (crawlCompany env req hr nd li ur).success = false ∧
    (crawlCompany env req hr nd li ur).error = some e := by
  refine ⟨?_, ?_, ?_⟩ <;> simp [crawlCompany, h, errorResponse]

/-- Concrete check of `crawl_exception_surfaced`: a raising Handelsregister
adapter turns into the `success=false` error response. -/
theorem crawl_exception_surfaced_witness :
    crawlCompany env0 req0 (Except.error "boom") (.ok []) (.ok []) (.ok [])
      = errorResponse req0 "boom" ∧
    (crawlCompany env0 req0 (Except.error "boom") (.ok []) (.ok []) (.ok [])).success
      = false ∧
    (crawlCompany env0 req0 (Except.error "boom") (.ok []) (.ok []) (.ok [])).error
      = some "boom" :=
  crawl_exception_surfaced env0 req0 (Except.error "boom") (.ok []) (.ok [])
    (.ok []) "boom" rfl

/-- C2 counterexample: at a concrete request, an adapter that raises yields a
different response from the same adapter returning an empty record — the
former flips `success` to `false` (lines 159-163 feed the exception into the
global `except` at line 337), the latter keeps `success=true`. -/
theorem crawl_raise_vs_empty_cex :
    crawlCompany env0 req0 (Except.error "boom") (.ok []) (.ok []) (.ok [])
      ≠ crawlCompany env0 req0 (.ok []) (.ok []) (.ok []) (.ok []) := by
  decide

/-- C2 as amended: an adapter that raises makes the whole request return the
fixed error response (`success=false`, the exception's message, all
artifacts `None`) rather than the empty-record outcome; a request in which
every adapter returns an empty record — the scrapers' own internally-caught
failure mode — still returns `success=true` with every artifact `None` and
no error. -/
theorem crawl_raise_and_empty :
    (∀ (env : Env) (req : CompanyRequest) (e : String)
        (nd li ur : AdapterOutcome),
        crawlCompany env req (Except.error e) nd li ur = errorResponse req e) ∧
    (∀ (env : Env) (req : CompanyRequest),
        crawlCompany env req (.ok []) (.ok []) (.ok []) (.ok [])
          = { company_name := req.company_name
              registernummer := req.registernummer
              files := errorFiles
              success := true
              error := none }) := by
  constructor
  · intro env req e nd li ur
    rfl
  · intro env req
    show successResponse env req [] [] [] [] = _
    unfold successResponse
    cases h : finalUstIdnr env req with
    | none =>
      simp only [h]
      rfl
    | some u =>
      simp only [h]
      rcases eq_or_ne u "" with rfl | hne
      · simp only [if_pos rfl]
        rfl
      · simp only [if_neg hne]
        rfl

/-- C4 (shape of `files`): inputs on which the handler stores a bare string
into `files`. -/
def envDE : Env :=
  { fileText := fun p =>
      if p = "data/HRB1_SI.xml" then some "DE123456789" else none
    ustFromFile := none }

def reqDE : CompanyRequest :=
  { company_name := "X GmbH", registernummer := "HRB1", ust_idnr := some "" }

/-- C4: when no VAT id was supplied and a downloaded artifact contains a
`DE\d{9}` match, line 324 (`all_files["extracted_ust_idnr"] = ...`) puts a
bare string — not an artifact dict — into the `files` mapping of the
response the code builds, contradicting the declared response shape
`Dict[str, Dict[str, Optional[str]]]` (line 46). -/
theorem files_bare_string_entry :
    (crawlCompany envDE reqDE (.ok [("download_directory", some "data")])
        (.ok []) (.ok []) (.ok [])).files.lookup "extracted_ust_idnr"
      = some (FEntry.str "DE123456789") ∧
    (∀ m : List (String × Option String),
        FEntry.str "DE123456789" ≠ FEntry.dict m) := by
  constructor
  · decide
  · intro m h
    cases h

/-- C7 data: a register number matching none of the enumerated prefixes. -/
def reqBad : CompanyRequest :=
  { company_name := "Foo GmbH", registernummer := "XYZ999",
    ust_idnr := some "" }

/-- C7 counterexample: for the malformed register number `"XYZ999"` (no
enumerated prefix), the endpoint does not fail fast as a client error: the
request is processed to `success=true`, and the response still depends on
the adapters' outcomes — so the adapters are invoked. -/
theorem no_request_validation_cex :
    (∀ t, t ∈ registerTypes → strStartsWith "XYZ999" t = false) ∧
    (crawlCompany env0 reqBad (.ok []) (.ok []) (.ok []) (.ok [])).success
      = true ∧
    crawlCompany env0 reqBad (Except.error "adapter failure") (.ok []) (.ok [])
        (.ok [])
      ≠ crawlCompany env0 reqBad (.ok []) (.ok []) (.ok []) (.ok []) := by
  refine ⟨by decide, by decide, by decide⟩

/-- C7 as amended: the server performs no validation of the register number —
every request whose adapters complete is answered with `success=true` and no
error, whatever its `registernummer`; the only place the prefix set matters
is the registry adapter's form-filling, which silently defaults an
unrecognized register number to type `"HRB"` instead of rejecting it. -/
theorem request_never_rejected (env : Env) (req : CompanyRequest)
    (hd nd ld ud : PyDict) :
    (crawlCompany env req (.ok hd) (.ok nd) (.ok ld) (.ok ud)).success = true ∧
    (crawlCompany env req (.ok hd) (.ok nd) (.ok ld) (.ok ud)).error = none ∧
    (∀ r : String, (∀ t, t ∈ registerTypes → strStartsWith r t = false) →
        getRegisterType r = "HRB") := by
  refine ⟨rfl, rfl, ?_⟩
  intro r hall
  have hfind : registerTypes.find? (fun t => strStartsWith r t) = none := by
    rw [List.find?_eq_none]
    intro t ht
    simp [hall t ht]
  simp [getRegisterType, hfind]

/-- Concrete check of `request_never_rejected` at the malformed register
number `"XYZ999"`. -/
theorem request_never_rejected_witness :
    (crawlCompany env0 reqBad (.ok []) (.ok []) (.ok []) (.ok [])).success
      = true ∧
    getRegisterType "XYZ999" = "HRB" :=
  ⟨(request_never_rejected env0 reqBad [] [] [] []).1,
   (request_never_rejected env0 reqBad [] [] [] []).2.2 "XYZ999" (by decide)⟩

/-! ## Reconciliation engine (spec §4.2) -/

/-- Modelled from the spec: no reconciliation engine exists under `src/` —
the repository only declares the merged-record shape
(`src/models/company_model.py`, `CompanyData` with `data_sources` /
`scraped_at`) and the server returns raw per-source artifacts without
merging fields.  The design document §4.2 prescribes, for each field, a scan
of the contributed records in the fixed total source-priority order
registry-portal > aggregator-site > federal-register > professional-network,
the first non-null value winning together with its source tag. -/
inductive Source where
  | registryPortal
  | aggregatorSite
  | federalRegister
  | professionalNetwork
deriving DecidableEq, Repr

/-- Modelled from the spec: the fixed total source-priority order. -/
def sourceOrder : List Source :=
  [.registryPortal, .aggregatorSite, .federalRegister, .professionalNetwork]

/-- Position in the priority order; smaller is higher priority. -/
def srcRank : Source → Nat
  | .registryPortal => 0
  | .aggregatorSite => 1
  | .federalRegister => 2
  | .professionalNetwork => 3

/-- One source's contribution: `none` when the source failed or did not run
(the spec makes both contribute like an empty record), otherwise its record,
a map holding only non-null field values. -/
abbrev Contribs := Source → Option (List (String × Val))

/-- The non-null value source `s` reported for field `f`, if any. -/
def reportedValue (contribs : Contribs) (s : Source) (f : String) : Option Val :=
  (contribs s).bind (fun rec => rec.lookup f)

/-- Modelled from the spec: scan the sources in priority order; the first
one reporting a non-null value for the field wins, and its value is copied
together with its source tag (provenance). -/
def mergeField (contribs : Contribs) (f : String) : Option (Val × Source) :=
  sourceOrder.findSome? (fun s => (reportedValue contribs s f).map (fun v => (v, s)))

/-- Modelled from the spec: the merged record over a field schema — a field
absent from every contribution is absent from the output. -/
def mergeRecord (contribs : Contribs) (schema : List String) :
    List (String × Val × Source) :=
  schema.filterMap (fun f => (mergeField contribs f).map (fun vs => (f, vs)))

/-- C1: if source `s` reports a non-null value `v` for field `f` and every
strictly higher-priority source reports nothing for `f`, then the merge
holds exactly `v` tagged with `s` — in particular, when two or more sources
report the field, the one earliest in
registry-portal > aggregator-site > federal-register > professional-network
wins and every lower-priority value is discarded, never blended. -/
theorem merge_priority (contribs : Contribs) (f : String) (s : Source) (v : Val)
    (hrep : reportedValue contribs s f = some v)
    (hmin : ∀ s', srcRank s' < srcRank s → reportedValue contribs s' f = none) :
    mergeField contribs f = some (v, s) := by
  cases s with
  | registryPortal =>
    simp [mergeField, sourceOrder, List.findSome?, hrep]
  | aggregatorSite =>
    have h0 := hmin .registryPortal (by simp [srcRank])
    simp [mergeField, sourceOrder, List.findSome?, hrep, h0]
  | federalRegister =>
    have h0 := hmin .registryPortal (by simp [srcRank])
    have h1 := hmin .aggregatorSite (by simp [srcRank])
    simp [mergeField, sourceOrder, List.findSome?, hrep, h0, h1]
  | professionalNetwork =>
    have h0 := hmin .registryPortal (by simp [srcRank])
    have h1 := hmin .aggregatorSite (by simp [srcRank])
    have h2 := hmin .federalRegister (by simp [srcRank])
    simp [mergeField, sourceOrder, List.findSome?, hrep, h0, h1, h2]

/-- The spec's own example for `merge_priority`: the registry and the
aggregator both report `handelsregister` with different values; the registry
value `"Hamburg"` wins, the aggregator value `"Berlin"` is discarded. -/
def contribs0 : Contribs := fun s =>
  match s with
  | .registryPortal =>
    some [("handelsregister", .s "Hamburg"), ("geschaeftsfuehrer", .ls ["A Name"])]
  | .aggregatorSite =>
    some [("handelsregister", .s "Berlin"), ("umsatz", .f (Rat.divInt 2300000 1))]
  | _ => none

theorem merge_priority_witness :
    mergeField contribs0 "handelsregister" = some (.s "Hamburg", .registryPortal) :=
  merge_priority contribs0 "handelsregister" .registryPortal (.s "Hamburg")
    (by decide)
    (by intro s' h
        cases s' <;> simp [srcRank] at h ⊢)
